import Mathlib

/-!
# Verification of the `cfasodapy` Socrata query client

Shallow embedding of `src/cfasodapy/__init__.py` (the `Query` class and the
module-level helper `_int_divide_ceiling`) together with theorems settling the
frozen claims about it.

Modelling conventions:

* Python `Optional[T]` becomes `Option T`; Python arbitrary-precision `int`
  becomes `Int`; Python `//` (floor division) becomes `Int.fdiv`.
* A function that can raise (`assert`, `raise RuntimeError`, a `TypeError`
  from `None + int`) is embedded as `Except String α`; the error string names
  the Python exception class.
* A clause payload (the Python `dict` built by `_build_clauses`) is embedded
  as an association list `List (String × ClauseValue)` in insertion order
  (`$select`, `$where`, `$limit`, `$offset`), matching `dict` insertion order.
* `warnings.warn` is modelled as a `Bool` flag returned next to the value
  (each branch of `n_rows` warns at most once before returning).
* The HTTP transport is abstracted: functions that issue a GET are split into
  the pure computation of the outgoing request (URL, query parameters, the
  `data=` form body and the headers passed to `requests.get`) and the pure
  processing of a given server response.
-/

/-- A value stored in a clause payload: Python puts both strings and ints in
the `clauses` dict. -/
inductive ClauseValue where
  | str (s : String) : ClauseValue
  | int (i : Int) : ClauseValue
deriving DecidableEq, Repr

/-- The Python `select` argument: `Optional[str | Sequence[str]]`; this type
is the payload of the `some` case. -/
inductive SelectArg where
  | str (s : String) : SelectArg
  | list (xs : List String) : SelectArg
deriving DecidableEq, Repr

/-- The fields assigned by `Query.__init__` (src/cfasodapy/__init__.py,
lines 27-64).  `where` is a Lean keyword, hence the trailing underscore. -/
structure Query where
  domain : String
  id : String
  select : Option SelectArg
  where_ : Option String
  limit : Option Int
  offset : Option Int
  app_token : Option String
  verbose : Bool
deriving DecidableEq, Repr

/-- `Query.__init__`: it only stores its arguments — it performs no
validation and cannot raise, which the `Except` codomain makes visible. -/
def Query.init (domain id : String) (select : Option SelectArg)
    (where_ : Option String) (limit offset : Option Int)
    (app_token : Option String) (verbose : Bool) : Except String Query :=
  Except.ok
    { domain := domain, id := id, select := select, where_ := where_,
      limit := limit, offset := offset, app_token := app_token,
      verbose := verbose }

/-- `_int_divide_ceiling(a, b) = -(a // -b)` (lines 9-23); Python `//` is
floor division, i.e. `Int.fdiv`. -/
def _int_divide_ceiling (a b : Int) : Int :=
  -(Int.fdiv a (-b))

/-- The condition tested by `Query._assert_no_quotes` (lines 236-239): the
string contains a double-quote character (`Char.ofNat 34`) or a single-quote
character (`Char.ofNat 39`); Python string membership is expressed on the
character list. -/
def hasQuote (x : String) : Bool :=
  x.toList.any (fun c => c == Char.ofNat 34)
    || x.toList.any (fun c => c == Char.ofNat 39)

/-- `Query._assert_no_quotes` (lines 236-239), the quote check itself. -/
def _assert_no_quotes (x : String) : Except String Unit :=
  if hasQuote x then
    Except.error "RuntimeError: Quotes detected in string"
  else
    Except.ok ()

/-- `Query._build_clauses` (lines 201-234): builds the clause dict from the
structured fields.  A string `select` passes through after the quote check; a
list `select` has each entry quote-checked, then each entry is wrapped in
double quotes and the results joined with commas.  `limit` must be positive
and `offset` non-negative (Python `assert` statements). -/
def _build_clauses (select : Option SelectArg) (where_ : Option String)
    (limit offset : Option Int) : Except String (List (String × ClauseValue)) := do
  let selectClauses ← match select with
    | none => pure []
    | some (SelectArg.str s) => do
        _assert_no_quotes s
        pure [("$select", ClauseValue.str s)]
    | some (SelectArg.list xs) => do
        xs.forM _assert_no_quotes
        pure [("$select",
          ClauseValue.str (String.intercalate ","
            (xs.map (fun x => "\"" ++ x ++ "\""))))]
  let whereClauses := match where_ with
    | none => []
    | some w => [("$where", ClauseValue.str w)]
  let limitClauses ← match limit with
    | none => pure ([] : List (String × ClauseValue))
    | some l =>
        if l > 0 then pure [("$limit", ClauseValue.int l)]
        else Except.error "AssertionError: limit must be positive"
  let offsetClauses ← match offset with
    | none => pure ([] : List (String × ClauseValue))
    | some o =>
        if o ≥ 0 then pure [("$offset", ClauseValue.int o)]
        else Except.error "AssertionError: offset must be non-negative"
  pure (selectClauses ++ whereClauses ++ limitClauses ++ offsetClauses)

/-- `Query._validate_clauses` (lines 241-260): collects the payload keys that
are outside the hard-coded list
`["$select", "$where", "$group", "$having", "$limit", "$offset"]` and raises
`RuntimeError` when that set is non-empty; `None` passes. -/
def _validate_clauses (clauses : Option (List (String × ClauseValue))) :
    Except String Unit :=
  let keys := ["$select", "$where", "$group", "$having", "$limit", "$offset"]
  match clauses with
  | none => Except.ok ()
  | some cs =>
      if (cs.map Prod.fst).all (fun k => keys.contains k) then Except.ok ()
      else Except.error "RuntimeError: Invalid clause keys"

/-- The outgoing HTTP request assembled by `Query._get_request`
(lines 274-291): `requests.get(url, data=data, params=params)`.  `body` is
the `data=` keyword argument (a form-encoded request body); `headers` is
what the call passes as HTTP headers — `requests.get` is called without a
`headers=` argument, so no caller-specified header is ever attached. -/
structure HttpRequest where
  url : String
  params : List (String × ClauseValue)
  body : Option (List (String × String))
  headers : List (String × String)
deriving DecidableEq, Repr

/-- `Query._get_request` up to the network call: validates the params, then
assembles the request.  When `app_token` is set, the code builds
`data = {"X-App-token": app_token}` and passes it as `data=` (the request
body), not as a header. -/
def _get_request (url : String) (params : Option (List (String × ClauseValue)))
    (app_token : Option String) : Except String HttpRequest := do
  _validate_clauses params
  let data := app_token.map (fun t => [("X-App-token", t)])
  pure { url := url, params := params.getD [], body := data, headers := [] }

/-- The arithmetic part of `Query.n_rows` (lines 145-172), applied after the
count response has been parsed into `n_dataset_rows`.  Returns the computed
row count together with a flag recording whether `warnings.warn` was called
(each warning is immediately followed by `return`, so at most one fires). -/
def n_rows_core (n_dataset_rows : Int) (offset limit : Option Int) :
    Int × Bool :=
  if n_dataset_rows = 0 then
    (0, true)
  else
    -- Python: `n_rows_after_offset = n_dataset_rows - (self.offset or 0)`
    let n_rows_after_offset := n_dataset_rows - (offset.getD 0)
    if n_rows_after_offset < 0 then
      (0, true)
    else
      match limit with
      | some l =>
          if l > n_rows_after_offset then (0, true)
          else (n_rows_after_offset - l, false)
      | none => (n_rows_after_offset, false)

/-- The clause payload of the single GET issued by `Query.n_rows`
(lines 134-138): `_build_clauses(select="count(:id)", where=self.where)` —
no `limit` and no `offset` argument is passed. -/
def n_rows_request (where_ : Option String) :
    Except String (List (String × ClauseValue)) :=
  _build_clauses (some (SelectArg.str "count(:id)")) where_ none none

/-- The decimal value of a digit character (code points 48-57), `none`
otherwise. -/
def digitVal? (c : Char) : Option Nat :=
  if 48 ≤ c.toNat ∧ c.toNat ≤ 57 then some (c.toNat - 48) else none

/-- The value of a non-empty all-digit character list, `none` otherwise. -/
def digitsVal? (cs : List Char) : Option Nat :=
  match cs with
  | [] => none
  | _ =>
      cs.foldl
        (fun acc c =>
          match acc, digitVal? c with
          | some n, some d => some (10 * n + d)
          | _, _ => none)
        (some 0)

/-- Modelled from the spec: Python's builtin `int(string)` (an external
collaborator of the repository), restricted to an optional leading minus
sign (`Char.ofNat 45`) followed by decimal digits; `none` stands for the
`ValueError` Python raises on any other input. -/
def pyInt? (s : String) : Option Int :=
  match s.toList with
  | [] => none
  | c :: cs =>
      if c == Char.ofNat 45 then (digitsVal? cs).map (fun n => -(n : Int))
      else (digitsVal? (c :: cs)).map (fun n => (n : Int))

/-- `Query.n_rows` (lines 127-172) given the server's JSON response to the
count request (a list of records, each an association list of string
fields).  Asserts the response has exactly one record and that it has a
`count_id` field, parses that field with `int(...)` (modelled by `pyInt?`),
then runs the arithmetic in `n_rows_core`. -/
def n_rows (q : Query) (response : List (List (String × String))) :
    Except String (Int × Bool) := do
  let _params ← n_rows_request q.where_
  match response with
  | [record] =>
      match record.lookup "count_id" with
      | some s =>
          match pyInt? s with
          | some n => pure (n_rows_core n q.offset q.limit)
          | none => Except.error "ValueError: invalid literal for int()"
      | none => Except.error "AssertionError: count_id not in result"
  | _ => Except.error "AssertionError: Expected length 1"

/-- Python `self.offset + start` where `self.offset : Optional[int]`: adding
`None` to an int raises `TypeError`. -/
def pyAdd (a : Option Int) (b : Int) : Except String Int :=
  match a with
  | none => Except.error "TypeError: unsupported operand types for +"
  | some x => Except.ok (x + b)

/-- `Query._get_records` (lines 174-199) up to the network call: asserts
`end >= start`, computes `n_rows = end - start + 1`, evaluates
`self.offset + start` (a `TypeError` when `offset` is `None`), and builds
the clause payload with `offset = self.offset + start`, `limit = n_rows`. -/
def Query.get_records_request (q : Query) (start end_ : Int) :
    Except String (List (String × ClauseValue)) := do
  if end_ ≥ start then pure () else
    Except.error "AssertionError: end must not be less than start"
  let nRows := end_ - start + 1
  let outOffset ← pyAdd q.offset start
  _build_clauses q.select q.where_ (some nRows) (some outOffset)

/-- The requests issued by one run of `Query.get_pages` (lines 93-125): the
single count request made by `self.n_rows`, then one page request per page
index. -/
structure PageTrace where
  count_requests : List (List (String × ClauseValue))
  page_requests : List (List (String × ClauseValue))
deriving DecidableEq, Repr

/-- `Query.get_pages` (lines 93-125) up to the network: given the dataset
row count the server reports to the count query, computes
`row_count = self.n_rows`, `n_pages = _int_divide_ceiling(row_count,
page_size)`, and for each `i < n_pages` the window
`start = i * page_size`, `end = (i + 1) * page_size - 1` fetched by
`_get_records`.  Returns every request payload in order. -/
def Query.get_pages_trace (q : Query) (n_dataset_rows : Int)
    (page_size : Int) : Except String PageTrace := do
  let countParams ← n_rows_request q.where_
  let row_count := (n_rows_core n_dataset_rows q.offset q.limit).1
  let n_pages := _int_divide_ceiling row_count page_size
  let pageParams ← (List.range n_pages.toNat).mapM (fun (i : Nat) =>
    q.get_records_request ((i : Int) * page_size)
      (((i : Int) + 1) * page_size - 1))
  pure { count_requests := [countParams], page_requests := pageParams }

/-- Modelled from the spec: the effective row count formula
`max(0, min(datasetRowCount - offset, limit ?? datasetRowCount - offset))`
from the spec's invariant chain, for comparison with `n_rows_core`. -/
def specEffectiveRowCount (n_dataset_rows offset : Int) (limit : Option Int) :
    Int :=
  max 0 (min (n_dataset_rows - offset) (limit.getD (n_dataset_rows - offset)))

/-! ## Helper lemmas -/


theorem int_divide_ceiling_zero_left (b : Int) : _int_divide_ceiling 0 b = 0 := by
  simp [_int_divide_ceiling]

theorem int_divide_ceiling_cast_succ (m n : Nat) :
    _int_divide_ceiling ((m + 1 : Nat) : Int) ((n + 1 : Nat) : Int) =
      ((m / (n + 1) + 1 : Nat) : Int) := rfl

theorem fdiv_cast_succ (m n : Nat) :
    Int.fdiv ((m + 1 : Nat) : Int) ((n + 1 : Nat) : Int) =
      (((m + 1) / (n + 1) : Nat) : Int) := rfl

theorem ceil_cast_succ_div (m n : Nat) :
    ⌈(((m + 1 : Nat) : Int) : ℚ) / (((n + 1 : Nat) : Int) : ℚ)⌉ =
      ((m / (n + 1) + 1 : Nat) : Int) := by
  have hcast : ((((m + 1 : Nat) : Int)) : ℚ) / ((((n + 1 : Nat) : Int)) : ℚ) =
      -((((-((m + 1 : Nat) : Int)) : Int) : ℚ) / (((n + 1 : Nat) : ℕ) : ℚ)) := by
    push_cast
    ring
  rw [hcast, Int.ceil_neg, Rat.floor_intCast_div_natCast]
  rfl

theorem int_divide_ceiling_pos (c P : Int) (hc : 0 < c) (hP : 0 < P) :
    0 < _int_divide_ceiling c P := by
  obtain ⟨A, rfl⟩ := Int.eq_ofNat_of_zero_le hc.le
  obtain ⟨B, rfl⟩ := Int.eq_ofNat_of_zero_le hP.le
  cases A with
  | zero => exact absurd hc (by simp)
  | succ m =>
    cases B with
    | zero => exact absurd hP (by simp)
    | succ n =>
      rw [int_divide_ceiling_cast_succ]
      exact_mod_cast Nat.succ_pos (m / (n + 1))

/-- C9: for non-negative `a` and positive `b`, `_int_divide_ceiling a b`
(that is, `-(a // -b)`) equals the rational ceiling of `a / b`; it equals
`a // b` when `b` divides `a` and `1 + a // b` otherwise (`//` being Python
floor division, `Int.fdiv`). -/
theorem int_divide_ceiling_correct (a b : Int) (ha : 0 ≤ a) (hb : 0 < b) :
    _int_divide_ceiling a b = ⌈(a : ℚ) / (b : ℚ)⌉ ∧
      (b ∣ a → _int_divide_ceiling a b = Int.fdiv a b) ∧
      (¬b ∣ a → _int_divide_ceiling a b = 1 + Int.fdiv a b) := by
  obtain ⟨A, rfl⟩ := Int.eq_ofNat_of_zero_le ha
  obtain ⟨B, rfl⟩ := Int.eq_ofNat_of_zero_le hb.le
  cases B with
  | zero => exact absurd hb (by simp)
  | succ n =>
    cases A with
    | zero =>
      refine ⟨?_, fun _ => ?_, fun hnd => ?_⟩
      · simp [int_divide_ceiling_zero_left]
      · simp [int_divide_ceiling_zero_left]
      · exact absurd (by simp : ((n + 1 : Nat) : Int) ∣ ((0 : Nat) : Int)) hnd
    | succ m =>
      refine ⟨?_, fun hd => ?_, fun hnd => ?_⟩
      · rw [int_divide_ceiling_cast_succ, ceil_cast_succ_div]
      · have hd' : (n + 1) ∣ (m + 1) := by
          rwa [Int.natCast_dvd_natCast] at hd
        rw [int_divide_ceiling_cast_succ, fdiv_cast_succ,
          Nat.succ_div_of_dvd hd']
      · have hnd' : ¬(n + 1) ∣ (m + 1) := by
          rw [Int.natCast_dvd_natCast] at hnd
          exact hnd
        rw [int_divide_ceiling_cast_succ, fdiv_cast_succ,
          Nat.succ_div_of_not_dvd hnd']
        omega

/-- Witness for C9 at the inputs named in the claim. -/
theorem int_divide_ceiling_correct_witness :
    (0 : Int) ≤ 100001 ∧ (0 : Int) < 10000 ∧
      _int_divide_ceiling 100001 10000 = ⌈((100001 : Int) : ℚ) / ((10000 : Int) : ℚ)⌉ ∧
      _int_divide_ceiling 100001 10000 = 11 ∧
      _int_divide_ceiling 100000 10000 = 10 := by
  refine ⟨by norm_num, by norm_num,
    (int_divide_ceiling_correct 100001 10000 (by norm_num) (by norm_num)).1,
    by decide, by decide⟩

theorem error_bind {α β : Type} (e : String) (k : α → Except String β) :
    (Except.error e : Except String α) >>= k = Except.error e := rfl

theorem ok_bind {α β : Type} (x : α) (k : α → Except String β) :
    (Except.ok x : Except String α) >>= k = k x := rfl

theorem forM_assert_no_quotes_error (xs : List String)
    (h : ∃ x ∈ xs, hasQuote x = true) :
    xs.forM _assert_no_quotes =
      Except.error "RuntimeError: Quotes detected in string" := by
  induction xs with
  | nil => simp at h
  | cons a t ih =>
    by_cases ha : hasQuote a = true
    · simp [List.forM_cons, _assert_no_quotes, ha, error_bind]
    · obtain ⟨x, hx, hq⟩ := h
      rcases List.mem_cons.mp hx with rfl | hx'
      · exact absurd hq ha
      · simp [List.forM_cons, _assert_no_quotes, ha, ok_bind,
          ih ⟨x, hx', hq⟩]

/-- C1: at dataset row count 10, offset unset and limit 3, `n_rows` computes
`n_rows_after_offset - limit = 7` (without warning) where the spec formula
`max(0, min(N - o, L))` gives 3; and at count 5 with limit 10 it computes 0
where the formula gives 5. -/
theorem n_rows_core_contradicts_spec_formula :
    n_rows_core 10 none (some 3) = (7, false) ∧
      specEffectiveRowCount 10 0 (some 3) = 3 ∧
      (n_rows_core 10 none (some 3)).1 ≠ specEffectiveRowCount 10 0 (some 3) ∧
      n_rows_core 5 (some 0) (some 10) = (0, true) ∧
      specEffectiveRowCount 5 0 (some 10) = 5 := by
  decide

/-- C8: for every URL and configured app token, the request assembled by
`_get_request` carries the token dict as the `data=` form body and sends an
empty header list — the token is never sent as the `X-App-token` request
header. -/
theorem app_token_in_body_not_header (url : String) (tok : String) :
    _get_request url none (some tok) =
      Except.ok
        { url := url, params := [],
          body := some [("X-App-token", tok)], headers := [] } := rfl

/-- C4 counterexample: a payload with a `$group` key passes
`_validate_clauses` without error, contradicting the claim that every
payload containing `$group`, `$having` or `$order` is rejected. -/
theorem validate_clauses_accepts_group :
    _validate_clauses (some [("$group", ClauseValue.str "region")]) =
      Except.ok () := rfl

/-- C4 amended: `_validate_clauses` accepts a payload exactly when every key
is in the list `$select, $where, $group, $having, $limit, $offset`; hence a
`$order` key is rejected with `RuntimeError`, while `$group` and `$having`
keys are silently accepted. -/
theorem validate_clauses_allowed_keys (v : ClauseValue)
    (cs : List (String × ClauseValue)) :
    (_validate_clauses (some cs) = Except.ok () ↔
      ∀ k ∈ cs.map Prod.fst,
        k ∈ ["$select", "$where", "$group", "$having", "$limit", "$offset"]) ∧
      _validate_clauses (some (("$order", v) :: cs)) =
        Except.error "RuntimeError: Invalid clause keys" ∧
      _validate_clauses (some [("$group", v)]) = Except.ok () ∧
      _validate_clauses (some [("$having", v)]) = Except.ok () := by
  have horder :
      (["$select", "$where", "$group", "$having", "$limit",
        "$offset"] : List String).contains "$order" = false := by decide
  refine ⟨⟨fun h => ?_, fun h => ?_⟩, ?_, rfl, rfl⟩
  · by_cases hall : ((cs.map Prod.fst).all
        (fun k => (["$select", "$where", "$group", "$having", "$limit",
          "$offset"] : List String).contains k)) = true
    · intro k hk
      simpa using List.all_eq_true.mp hall k hk
    · simp only [_validate_clauses, if_neg hall] at h
      exact absurd h (by simp)
  · simp only [_validate_clauses]
    rw [if_pos]
    exact List.all_eq_true.mpr (fun k hk => by simpa using h k hk)
  · simp only [_validate_clauses, List.map_cons, List.all_cons, horder,
      Bool.false_and]
    rfl

/-- C5 counterexample: the select string `a,b` contains a comma yet
`_build_clauses` accepts it and embeds it in the payload, contradicting the
claim that a comma in a select entry fails with a configuration error. -/
theorem build_clauses_accepts_comma_in_select :
    _build_clauses (some (SelectArg.str "a,b")) none none none =
      Except.ok [("$select", ClauseValue.str "a,b")] := rfl

/-- C5 amended: a select entry containing a quote character (double or
single) makes `_build_clauses` fail with `RuntimeError` before any request
is assembled, both for a string select and for any list select containing
such an entry; comma characters are not checked. -/
theorem build_clauses_rejects_quote_entries (s : String) (w : Option String)
    (l o : Option Int) (xs : List String) (hs : hasQuote s = true)
    (hmem : s ∈ xs) :
    _build_clauses (some (SelectArg.str s)) w l o =
      Except.error "RuntimeError: Quotes detected in string" ∧
      _build_clauses (some (SelectArg.list xs)) w l o =
        Except.error "RuntimeError: Quotes detected in string" := by
  constructor
  · simp [_build_clauses, _assert_no_quotes, hs, error_bind]
  · simp [_build_clauses, forM_assert_no_quotes_error xs ⟨s, hmem, hs⟩,
      error_bind]

/-- Witness for C5 at a select entry containing a double quote. -/
theorem build_clauses_rejects_quote_entries_witness :
    hasQuote "a\"b" = true ∧
      _build_clauses (some (SelectArg.str "a\"b")) none none none =
        Except.error "RuntimeError: Quotes detected in string" ∧
      _build_clauses (some (SelectArg.list ["ok", "a\"b"])) none none none =
        Except.error "RuntimeError: Quotes detected in string" := by
  have h := build_clauses_rejects_quote_entries "a\"b" none none none
    ["ok", "a\"b"] (by decide) (by decide)
  exact ⟨by decide, h.1, h.2⟩

/-- C6 counterexample: with dataset row count 5, offset 5 (equal to the
count) and no limit, `n_rows` returns 0 but emits no warning, contradicting
the claim that every `offset >= datasetRowCount` case returns 0 with a
warning. -/
theorem n_rows_core_offset_equal_no_warning :
    n_rows_core 5 (some 5) none = (0, false) := by decide

/-- C6 amended: with a positive limit when one is set, `n_rows` returns 0
and warns when the dataset count is 0 or the offset strictly exceeds the
count; when the offset equals the count it still returns 0 but warns only
when a limit is set.  None of these cases is an exception — `n_rows_core`
is total. -/
theorem n_rows_core_edge_cases (N o : Int) (L : Option Int)
    (hL : ∀ l, L = some l → 0 < l) :
    n_rows_core 0 (some o) L = (0, true) ∧
      (0 < N → N < o → n_rows_core N (some o) L = (0, true)) ∧
      (0 < N → o = N → n_rows_core N (some o) L = (0, L.isSome)) := by
  refine ⟨by simp [n_rows_core], fun hN ho => ?_, fun hN ho => ?_⟩
  · simp only [n_rows_core]
    rw [if_neg (by omega), if_pos (by simp; omega)]
  · subst ho
    cases L with
    | none =>
      simp only [n_rows_core, Option.isSome]
      rw [if_neg (by omega), if_neg (by simp only [Option.getD_some]; omega)]
      simp
    | some l =>
      have hl : 0 < l := hL l rfl
      simp only [n_rows_core, Option.isSome]
      rw [if_neg (by omega), if_neg (by simp only [Option.getD_some]; omega),
        if_pos (by simp only [Option.getD_some]; omega)]

/-- Witness for C6: empty dataset, offset 9 past a 7-row dataset, and
offset equal to the count with and without a limit. -/
theorem n_rows_core_edge_cases_witness :
    n_rows_core 0 (some 9) none = (0, true) ∧
      n_rows_core 7 (some 9) none = (0, true) ∧
      n_rows_core 7 (some 7) (some 2) = (0, true) ∧
      n_rows_core 7 (some 7) none = (0, false) := by
  refine ⟨(n_rows_core_edge_cases 7 9 none (fun l h => by cases h)).1,
    (n_rows_core_edge_cases 7 9 none (fun l h => by cases h)).2.1
      (by norm_num) (by norm_num),
    (n_rows_core_edge_cases 7 7 (some 2)
      (fun l h => by injection h with h2; omega)).2.2 (by norm_num) rfl,
    (n_rows_core_edge_cases 7 7 none (fun l h => by cases h)).2.2
      (by norm_num) rfl⟩

/-- C7 counterexample: constructing a query with the non-positive limit `-5`
and the negative offset `-2` succeeds — `__init__` performs no validation,
contradicting the claim that construction fails with a configuration error. -/
theorem query_init_accepts_invalid_arguments :
    Query.init "data.cdc.gov" "abc123" none none (some (-5)) (some (-2))
        none true =
      Except.ok
        { domain := "data.cdc.gov", id := "abc123", select := none,
          where_ := none, limit := some (-5), offset := some (-2),
          app_token := none, verbose := true } := rfl

/-- C7 amended: construction never fails, for any arguments; the checks are
deferred to `_build_clauses`, which runs when the first request is built and
rejects a non-positive limit and a negative offset by `AssertionError` and a
quote-carrying select entry by `RuntimeError`. -/
theorem query_init_never_fails (domain id : String) (sel : Option SelectArg)
    (w : Option String) (l o : Option Int) (tok : Option String) (vb : Bool) :
    Query.init domain id sel w l o tok vb =
      Except.ok
        { domain := domain, id := id, select := sel, where_ := w,
          limit := l, offset := o, app_token := tok, verbose := vb } ∧
      (∀ li : Int, li ≤ 0 → _build_clauses none none (some li) none =
        Except.error "AssertionError: limit must be positive") ∧
      (∀ od : Int, od < 0 → _build_clauses none none none (some od) =
        Except.error "AssertionError: offset must be non-negative") ∧
      (∀ s : String, hasQuote s = true →
        _build_clauses (some (SelectArg.str s)) none none none =
          Except.error "RuntimeError: Quotes detected in string") := by
  refine ⟨rfl, fun li hli => ?_, fun od hod => ?_, fun s hq => ?_⟩
  · simp only [_build_clauses, ok_bind, error_bind, pure_bind]
    rw [if_neg (by omega)]
  · simp only [_build_clauses, ok_bind, error_bind, pure_bind]
    rw [if_neg (by omega)]
  · simp [_build_clauses, _assert_no_quotes, hq, error_bind]

/-- Witness for C7 with limit 0, offset -1 and a quoted select entry. -/
theorem query_init_never_fails_witness :
    Query.init "data.cdc.gov" "abc123" none none none none none true =
      Except.ok
        { domain := "data.cdc.gov", id := "abc123", select := none,
          where_ := none, limit := none, offset := none,
          app_token := none, verbose := true } ∧
      _build_clauses none none (some 0) none =
        Except.error "AssertionError: limit must be positive" ∧
      _build_clauses none none none (some (-1)) =
        Except.error "AssertionError: offset must be non-negative" ∧
      _build_clauses (some (SelectArg.str "a\"b")) none none none =
        Except.error "RuntimeError: Quotes detected in string" := by
  have h := query_init_never_fails "data.cdc.gov" "abc123" none none none
    none none true
  exact ⟨h.1, h.2.1 0 (by norm_num), h.2.2.1 (-1) (by norm_num),
    h.2.2.2 "a\"b" (by decide)⟩

theorem n_rows_request_ok (w : Option String) :
    n_rows_request w =
      Except.ok (("$select", ClauseValue.str "count(:id)") ::
        (w.map (fun t => ("$where", ClauseValue.str t))).toList) := by
  cases w with
  | none => rfl
  | some t => rfl

/-- C3 counterexample: the count request payload at an unset `where` is
exactly `$select = count(:id)` — it has no `$limit` key at all,
contradicting the claimed `$limit = 1`. -/
theorem n_rows_count_payload_lacks_limit :
    n_rows_request none =
      Except.ok [("$select", ClauseValue.str "count(:id)")] ∧
      List.lookup "$limit" [("$select", ClauseValue.str "count(:id)")] =
        none := ⟨rfl, rfl⟩

/-- C3 amended: the single count GET carries `$select = count(:id)` plus the
definition's `$where` when set and nothing else — in particular no `$limit`
clause; the response must be a single record whose `count_id` field parses
as an integer, which is then fed to the row arithmetic. -/
theorem n_rows_count_request_and_parse (w : Option String) (q : Query)
    (s : String) (n : Int) (hparse : pyInt? s = some n) :
    n_rows_request w =
      Except.ok (("$select", ClauseValue.str "count(:id)") ::
        (w.map (fun t => ("$where", ClauseValue.str t))).toList) ∧
      (n_rows_request w).map (fun cs => List.lookup "$limit" cs) =
        Except.ok none ∧
      n_rows q [[("count_id", s)]] =
        Except.ok (n_rows_core n q.offset q.limit) := by
  refine ⟨n_rows_request_ok w, ?_, ?_⟩
  · cases w with
    | none => rfl
    | some t => rfl
  · simp only [n_rows, n_rows_request_ok q.where_, ok_bind]
    simp [List.lookup, hparse]
    rfl

/-- Witness for C3 at a concrete filter and count response. -/
theorem n_rows_count_request_and_parse_witness :
    n_rows_request (some "state = 6") =
      Except.ok [("$select", ClauseValue.str "count(:id)"),
        ("$where", ClauseValue.str "state = 6")] ∧
      (n_rows_request (some "state = 6")).map
        (fun cs => List.lookup "$limit" cs) = Except.ok none ∧
      n_rows
          { domain := "data.cdc.gov", id := "abc123", select := none,
            where_ := some "state = 6", limit := none, offset := some 0,
            app_token := none, verbose := true }
          [[("count_id", "25000")]] =
        Except.ok (n_rows_core 25000 (some 0) none) := by
  have h := n_rows_count_request_and_parse (some "state = 6")
    { domain := "data.cdc.gov", id := "abc123", select := none,
      where_ := some "state = 6", limit := none, offset := some 0,
      app_token := none, verbose := true }
    "25000" 25000 (by decide)
  exact h

theorem mapM_ok_of_forall {α β : Type} (f : α → Except String β)
    (g : α → β) (l : List α) (h : ∀ x ∈ l, f x = Except.ok (g x)) :
    l.mapM f = Except.ok (l.map g) := by
  induction l with
  | nil => rfl
  | cons a t ih =>
    rw [List.mapM_cons, h a (List.mem_cons_self a t),
      ih (fun x hx => h x (List.mem_cons_of_mem a hx))]
    rfl

theorem get_records_request_eval (q : Query) (o start end_ : Int)
    (hoff : q.offset = some o) (hsel : q.select = none)
    (hw : q.where_ = none) (hse : start ≤ end_) (hO : 0 ≤ o + start) :
    q.get_records_request start end_ =
      Except.ok [("$limit", ClauseValue.int (end_ - start + 1)),
        ("$offset", ClauseValue.int (o + start))] := by
  simp only [Query.get_records_request, hoff, hsel, hw, pyAdd, ok_bind]
  rw [if_pos (by omega)]
  simp only [_build_clauses, ok_bind, pure_bind]
  rw [if_pos (by omega), if_pos hO]
  rfl

/-- C2 counterexample: in the 25000-row, page-size-10000 scenario the code
issues one count request and three page requests, but the third page
request carries `($offset, $limit) = (20000, 10000)` — the window end
`(i + 1) * page_size - 1` is not clamped to `total - 1` — and not the
claimed `(20000, 5000)`. -/
theorem get_pages_scenario_third_request_not_clamped :
    (Query.get_pages_trace
        { domain := "data.cdc.gov", id := "abc123", select := none,
          where_ := none, limit := none, offset := some 0,
          app_token := none, verbose := true } 25000 10000).map
      (fun tr => (tr.count_requests.length,
        tr.page_requests.map
          (fun cs => (List.lookup "$offset" cs, List.lookup "$limit" cs)))) =
      Except.ok (1,
        [(some (ClauseValue.int 0), some (ClauseValue.int 10000)),
          (some (ClauseValue.int 10000), some (ClauseValue.int 10000)),
          (some (ClauseValue.int 20000), some (ClauseValue.int 10000))]) ∧
      (some (ClauseValue.int 10000) : Option ClauseValue) ≠
        some (ClauseValue.int 5000) := ⟨rfl, by decide⟩

/-- C2 amended: every page request of `get_pages` uses the unclamped window
`start = i * page_size`, `end = (i + 1) * page_size - 1`, so each of the
`ceil(row_count / page_size)` page requests carries
`$offset = offset + i * page_size` and `$limit = page_size` (the last one is
not reduced to the remaining row count); one count request precedes them. -/
theorem get_pages_requests_unclamped (domain id : String)
    (tok : Option String) (vb : Bool) (o N P : Int) (ho : 0 ≤ o)
    (hP : 0 < P) :
    Query.get_pages_trace
        { domain := domain, id := id, select := none, where_ := none,
          limit := none, offset := some o, app_token := tok,
          verbose := vb } N P =
      Except.ok
        { count_requests := [[("$select", ClauseValue.str "count(:id)")]],
          page_requests :=
            (List.range (_int_divide_ceiling
                (n_rows_core N (some o) none).1 P).toNat).map
              (fun (i : Nat) => [("$limit", ClauseValue.int P),
                ("$offset", ClauseValue.int (o + (i : Int) * P))]) } := by
  simp only [Query.get_pages_trace, n_rows_request_ok, ok_bind]
  rw [mapM_ok_of_forall _
    (fun (i : Nat) => [("$limit", ClauseValue.int P),
      ("$offset", ClauseValue.int (o + (i : Int) * P))]) _ ?_]
  · rfl
  · intro i hi
    have hiP : 0 ≤ (i : Int) * P := mul_nonneg (Int.natCast_nonneg i) hP.le
    have hexp : ((i : Int) + 1) * P = (i : Int) * P + P := by ring
    have hse : (i : Int) * P ≤ ((i : Int) + 1) * P - 1 := by omega
    have hO : 0 ≤ o + (i : Int) * P := by omega
    rw [get_records_request_eval _ o ((i : Int) * P) (((i : Int) + 1) * P - 1)
      rfl rfl rfl hse hO]
    have harith : ((i : Int) + 1) * P - 1 - (i : Int) * P + 1 = P := by ring
    rw [harith]

/-- Witness for C2 at the scenario of the claim (offset 0, count 25000,
page size 10000), with the page-request list evaluated. -/
theorem get_pages_requests_unclamped_witness :
    Query.get_pages_trace
        { domain := "data.cdc.gov", id := "abc123", select := none,
          where_ := none, limit := none, offset := some 0,
          app_token := none, verbose := true } 25000 10000 =
      Except.ok
        { count_requests := [[("$select", ClauseValue.str "count(:id)")]],
          page_requests :=
            (List.range (_int_divide_ceiling
                (n_rows_core 25000 (some 0) none).1 10000).toNat).map
              (fun (i : Nat) => [("$limit", ClauseValue.int 10000),
                ("$offset", ClauseValue.int (0 + (i : Int) * 10000))]) } ∧
      (List.range (_int_divide_ceiling
          (n_rows_core 25000 (some 0) none).1 10000).toNat).map
        (fun (i : Nat) => [("$limit", ClauseValue.int 10000),
          ("$offset", ClauseValue.int (0 + (i : Int) * 10000))]) =
        [[("$limit", ClauseValue.int 10000), ("$offset", ClauseValue.int 0)],
          [("$limit", ClauseValue.int 10000),
            ("$offset", ClauseValue.int 10000)],
          [("$limit", ClauseValue.int 10000),
            ("$offset", ClauseValue.int 20000)]] :=
  ⟨get_pages_requests_unclamped "data.cdc.gov" "abc123" none true 0 25000
    10000 (le_refl 0) (by norm_num), by decide⟩

/-- C10: a `Query` left with its default `offset = None` on a dataset whose
computed row count is positive makes `get_pages` fail with a `TypeError`
while building the first page request (`self.offset + start` adds `None`
and an int), even though the row-count path `n_rows` treats the unset
offset as 0. -/
theorem get_pages_type_error_when_offset_unset (q : Query) (N P : Int)
    (hoff : q.offset = none)
    (hpos : 0 < (n_rows_core N none q.limit).1) (hP : 0 < P) :
    q.get_pages_trace N P =
      Except.error "TypeError: unsupported operand types for +" ∧
      n_rows_core N none q.limit = n_rows_core N (some 0) q.limit := by
  refine ⟨?_, rfl⟩
  have hpages := int_divide_ceiling_pos (n_rows_core N none q.limit).1 P
    hpos hP
  simp only [Query.get_pages_trace, n_rows_request_ok, ok_bind, hoff]
  obtain ⟨K, hK⟩ : ∃ K,
      (_int_divide_ceiling (n_rows_core N none q.limit).1 P).toNat =
        K + 1 :=
    ⟨(_int_divide_ceiling (n_rows_core N none q.limit).1 P).toNat - 1,
      by omega⟩
  rw [hK, List.range_succ_eq_map, List.mapM_cons]
  have hf0 : q.get_records_request (((0 : Nat) : Int) * P)
      ((((0 : Nat) : Int) + 1) * P - 1) =
      Except.error "TypeError: unsupported operand types for +" := by
    simp only [Query.get_records_request, hoff, pyAdd]
    rw [if_pos (by push_cast; omega)]
    simp [ok_bind, error_bind]
  rw [hf0]
  rfl

/-- Witness for C10: default (unset) offset on a 25000-row dataset with
page size 10000. -/
theorem get_pages_type_error_when_offset_unset_witness :
    Query.get_pages_trace
        { domain := "data.cdc.gov", id := "abc123", select := none,
          where_ := none, limit := none, offset := none,
          app_token := none, verbose := true } 25000 10000 =
      Except.error "TypeError: unsupported operand types for +" ∧
      n_rows_core 25000 none none = n_rows_core 25000 (some 0) none := by
  exact get_pages_type_error_when_offset_unset
    { domain := "data.cdc.gov", id := "abc123", select := none,
      where_ := none, limit := none, offset := none,
      app_token := none, verbose := true } 25000 10000 rfl (by decide)
    (by norm_num)
